import Mathlib

/-!
# Verification of the ELEC4542 pytorch-introduction notebooks

A shallow embedding of the two instructional notebooks (`neuralnet.ipynb`,
`tensor.ipynb`).  The repository is orchestration glue over an external
deep-learning library, so the embedding models:

* the call order and state effects of `train_step` / `train_epoch` and
  `evaluate_step` / `evaluate_epoch` (parameter values, gradient buffers,
  the recorded backward-computation graph, an event trace);
* the data-loader batching (`DataLoader(..., batch_size=8, shuffle=...)`);
* the dataset `__getitem__` with the `v2.Compose` transform chain;
* the tensor `view` / `flatten` reshaping demonstrated in `tensor.ipynb`;
* the top-level workflow effects (dataset download, training, evaluation,
  `torch.save`).

The external library's internals (convolution kernels, autograd math,
optimizer update rule, schedule curve) are not repository code; they are
abstracted as parameters (`TorchLib`, `TorchLibE`, `VisionLib`) or modelled
from the library's documented behaviour where a claim depends on it
(gradient accumulation, `zero_grad`, `view` semantics).
-/

/-- The library calls a training/evaluation step can make, used both for the
event trace (call order) and for recorded backward-computation links. -/
inductive Op
  | forward
  | lossCompute
  | backward
  | optimizerStep
  | zeroGrad
  | schedulerStep
deriving DecidableEq, Repr

/-- The mutable state the notebook's loops act on: the model's trainable
parameter values, their gradient buffers (`none` models an empty/reset
buffer, as with `zero_grad`'s set-to-none behaviour), the optimizer's
learning rate, the scheduler's step counter, the autograd graph links
recorded so far, and a ghost event trace of library calls in order. -/
structure NNState where
  paramValues : List ℚ
  paramGrads : List (Option ℚ)
  lr : ℚ
  schedulerSteps : ℕ
  graph : List Op
  trace : List Op
deriving Repr

/-- The external library operations the notebook delegates to.  Their math
(network function, loss, autograd-computed gradients, SGD update, cosine
annealing curve) lives in the external framework, so it is abstracted:
every theorem below holds for an arbitrary `TorchLib`. -/
structure TorchLib where
  modelApply : List ℚ → List (List ℚ) → List (List ℚ)
  criterion : List (List ℚ) → List ℕ → ℚ
  gradient : List ℚ → List (List ℚ) → List ℕ → List ℚ
  update : ℚ → ℚ → ℚ → ℚ
  nextLR : ℚ → ℕ → ℚ

/-- Autograd records a backward-computation link for an operation only when
gradient tracking is enabled (`@torch.no_grad()` disables it). -/
def recordLink (gradMode : Bool) (op : Op) (s : NNState) : NNState :=
  if gradMode then { s with graph := s.graph ++ [op] } else s

/-- Ghost instrumentation: append a library call to the event trace. -/
def logCall (op : Op) (s : NNState) : NNState :=
  { s with trace := s.trace ++ [op] }

/-- `output = model(input)`: apply the network function to the batch. -/
def modelForward (gradMode : Bool) (lib : TorchLib) (input : List (List ℚ))
    (s : NNState) : List (List ℚ) × NNState :=
  (lib.modelApply s.paramValues input, logCall .forward (recordLink gradMode .forward s))

/-- `loss = criterion(output, label)`. -/
def criterionApply (gradMode : Bool) (lib : TorchLib) (output : List (List ℚ))
    (label : List ℕ) (s : NNState) : ℚ × NNState :=
  (lib.criterion output label, logCall .lossCompute (recordLink gradMode .lossCompute s))

/-- `loss.backward()`: autograd accumulates each parameter's gradient into
its buffer (`(existing or 0) + fresh`), the documented accumulate-on-backward
behaviour. -/
def lossBackward (lib : TorchLib) (input : List (List ℚ)) (label : List ℕ)
    (s : NNState) : NNState :=
  let gs := lib.gradient s.paramValues input label
  logCall .backward
    { s with paramGrads := (s.paramGrads.zip gs).map (fun p => some (p.1.getD 0 + p.2)) }

/-- `optimizer.step()`: update each parameter from its gradient buffer;
parameters whose buffer is empty are left untouched. -/
def optimizerStep (lib : TorchLib) (s : NNState) : NNState :=
  logCall .optimizerStep
    { s with paramValues :=
        (s.paramValues.zip s.paramGrads).map (fun p =>
          match p.2 with
          | some g => lib.update s.lr p.1 g
          | none => p.1) }

/-- `optimizer.zero_grad()`: reset every gradient buffer to empty. -/
def zero_grad (s : NNState) : NNState :=
  logCall .zeroGrad { s with paramGrads := s.paramGrads.map (fun _ => none) }

/-- `scheduler.step()`: advance the schedule counter and move the learning
rate along the (externally defined) schedule curve. -/
def schedulerStep (lib : TorchLib) (s : NNState) : NNState :=
  logCall .schedulerStep
    { s with schedulerSteps := s.schedulerSteps + 1,
             lr := lib.nextLR s.lr (s.schedulerSteps + 1) }

/-- `train_step` exactly as the notebook writes it:
`output = model(input); loss = criterion(output, label); loss.backward();
optimizer.step(); optimizer.zero_grad(); scheduler.step(); return loss, output`. -/
def train_step (lib : TorchLib) (input : List (List ℚ)) (label : List ℕ)
    (s : NNState) : (ℚ × List (List ℚ)) × NNState :=
  let (output, s1) := modelForward true lib input s
  let (loss, s2) := criterionApply true lib output label s1
  let s3 := lossBackward lib input label s2
  let s4 := optimizerStep lib s3
  let s5 := zero_grad s4
  let s6 := schedulerStep lib s5
  ((loss, output), s6)

/-- `train_epoch`: run `train_step` on every batch in order (the periodic
`print` has no state effect and is omitted). -/
def train_epoch (lib : TorchLib) (batches : List (List (List ℚ) × List ℕ))
    (s : NNState) : NNState :=
  batches.foldl (fun st b => (train_step lib b.1 b.2 st).2) s

/-- The states at which each `train_step` of an epoch begins: `s` enters the
first step, then the state left by each step enters the next. -/
def stepStates (lib : TorchLib) : List (List (List ℚ) × List ℕ) → NNState → List NNState
  | [], _ => []
  | b :: bs, s => s :: stepStates lib bs (train_step lib b.1 b.2 s).2

/-- `evaluate_step`, decorated with `@torch.no_grad()`: the forward pass and
loss run with gradient tracking disabled. -/
def evaluate_step (lib : TorchLib) (input : List (List ℚ)) (label : List ℕ)
    (s : NNState) : (ℚ × List (List ℚ)) × NNState :=
  let (output, s1) := modelForward false lib input s
  let (loss, s2) := criterionApply false lib output label s1
  ((loss, output), s2)

/-- `output.argmax(dim=1)` on one row of class scores: index of the first
maximal entry. -/
def argmaxRow (row : List ℚ) : ℕ :=
  (row.foldl
    (fun acc x =>
      match acc with
      | (best, bestIdx, idx) =>
        if best < x then (x, idx, idx + 1) else (best, bestIdx, idx + 1))
    ((0 : ℚ), 0, 0)).2.1

/-- `pred.eq(label.view_as(pred)).sum().item()`: how many predictions match
their labels, position by position. -/
def countCorrect (pred label : List ℕ) : ℕ :=
  ((pred.zip label).filter (fun p => p.1 == p.2)).length

/-- The per-batch accuracy computed in `evaluate_epoch`:
`pred.eq(label.view_as(pred)).sum().item() / len(label)`. -/
def accuracy (pred label : List ℕ) : ℚ :=
  (countCorrect pred label : ℚ) / (label.length : ℚ)

/-- `evaluate_epoch`: run `evaluate_step` on every batch, computing the
per-batch accuracy from the argmax predictions; returns the final state and
the list of batch accuracies (the `print` is omitted). -/
def evaluate_epoch (lib : TorchLib) :
    List (List (List ℚ) × List ℕ) → NNState → NNState × List ℚ
  | [], s => (s, [])
  | b :: bs, s =>
    let ((_, output), st) := evaluate_step lib b.1 b.2 s
    let pred := output.map argmaxRow
    let rest := evaluate_epoch lib bs st
    (rest.1, accuracy pred b.2 :: rest.2)

/-- All gradient buffers are empty (reset). -/
def gradsReset (s : NNState) : Prop :=
  ∀ g ∈ s.paramGrads, g = none

instance (s : NNState) : Decidable (gradsReset s) := by
  unfold gradsReset; infer_instance

/-- A concrete instantiation of the external library, used to evaluate the
embedding on closed inputs. -/
def sampleLib : TorchLib where
  modelApply := fun _ input => input.map (fun _ => [1, 0])
  criterion := fun _ _ => 1
  gradient := fun ps _ _ => ps.map (fun _ => 1)
  update := fun lr v g => v - lr * g
  nextLR := fun lr _ => lr / 2

/-- A concrete initial state: two freshly created parameters, gradient
buffers empty, no recorded graph, empty trace. -/
def initState : NNState where
  paramValues := [2, 3]
  paramGrads := [none, none]
  lr := 1 / 1000
  schedulerSteps := 0
  graph := []
  trace := []

/-! ## Data loading: `DataLoader(..., batch_size=8, shuffle=...)` -/

/-- A data-loader configuration: the batch size and whether the item order
is reshuffled each pass. -/
structure DataLoaderCfg where
  batch_size : ℕ
  shuffle : Bool
deriving DecidableEq, Repr

/-- `train_loader = DataLoader(train_data, batch_size=8, shuffle=True)`. -/
def train_loader : DataLoaderCfg := ⟨8, true⟩

/-- `val_loader = DataLoader(val_data, batch_size=8, shuffle=False)`. -/
def val_loader : DataLoaderCfg := ⟨8, false⟩

/-- Group a list of dataset items into consecutive batches of `n` (the
default `drop_last=False` grouping: a final shorter batch is kept). -/
def chunks (n : ℕ) (xs : List α) : List (List α) :=
  if h : n = 0 ∨ xs.length = 0 then [] else xs.take n :: chunks n (xs.drop n)
termination_by xs.length
decreasing_by
  push_neg at h
  have h1 : 0 < n := Nat.pos_of_ne_zero h.1
  have h2 : 0 < xs.length := Nat.pos_of_ne_zero h.2
  simpa using Nat.sub_lt h2 h1

/-- Collate a batch of `(image, label)` items into a stacked input batch and
a label batch, as `DataLoader`'s default collation does. -/
def collate (batch : List (List ℚ × ℕ)) : List (List ℚ) × List ℕ :=
  (batch.map Prod.fst, batch.map Prod.snd)

/-- The batches a data loader with configuration `cfg` yields from `items`
(for the validation loader the pass order is the dataset order). -/
def loaderBatches (cfg : DataLoaderCfg) (items : List (List ℚ × ℕ)) :
    List (List (List ℚ) × List ℕ) :=
  (chunks cfg.batch_size items).map collate

/-- CIFAR-100's training split has 50000 labelled images. -/
def trainSetSize : ℕ := 50000

/-- CIFAR-100's test split (used as the validation set) has 10000 labelled
images. -/
def valSetSize : ℕ := 10000

/-! ## Tensors: `view` and `flatten` (`tensor.ipynb`) -/

/-- A tensor: a shape and its contents in row-major order. -/
structure Tensor (α : Type) where
  shape : List ℕ
  data : List α
deriving DecidableEq, Repr

/-- `t.view(s)`: reinterpret the same row-major contents under a new shape;
defined exactly when the element counts agree (on a contiguous tensor). -/
def Tensor.view (t : Tensor α) (s : List ℕ) : Option (Tensor α) :=
  if s.prod = t.data.length then some ⟨s, t.data⟩ else none

/-- `t.flatten()`: the rank-1 tensor holding the row-major contents. -/
def Tensor.flatten (t : Tensor α) : Tensor α :=
  ⟨[t.data.length], t.data⟩

/-- `torch.ones((r, c))`. -/
def ones (r c : ℕ) : Tensor ℚ :=
  ⟨[r, c], List.replicate (r * c) 1⟩

/-! ## The dataset adapter and its transform chain -/

/-- A stored image plane (the same transform applies uniformly to every
colour channel, so one plane stands for each). -/
abbrev Image := List (List ℚ)

/-- The random draws one `__getitem__` call consumes: the Bernoulli coins of
the two random flips and the seed for the crop-parameter draw. -/
structure RNG where
  flips : List Bool
  cropSeed : ℕ
deriving DecidableEq, Repr

/-- The external vision library's `RandomResizedCrop((32, 32))`: crops with
parameters drawn from the given seed and resizes; its geometry is library
internals, so it is abstract. -/
structure VisionLib where
  randomResizedCrop : ℕ → Image → Image

/-- `v2.ToTensor()`: scale 8-bit pixel values into `[0, 1]`. -/
def toTensor (img : Image) : Image :=
  img.map (fun row => row.map (fun p => p / 255))

/-- `v2.Normalize((0.5, 0.5, 0.5), (0.5, 0.5, 0.5))` on each channel. -/
def normalizeImg (img : Image) : Image :=
  img.map (fun row => row.map (fun p => (p - 1 / 2) / (1 / 2)))

/-- Reverse each row: a horizontal flip. -/
def flipH (img : Image) : Image := img.map List.reverse

/-- Reverse the row order: a vertical flip. -/
def flipV (img : Image) : Image := img.reverse

/-- `v2.RandomVerticalFlip()`: flip when its coin comes up true. -/
def randomVerticalFlip (coin : Bool) (img : Image) : Image :=
  if coin then flipV img else img

/-- `v2.RandomHorizontalFlip()`: flip when its coin comes up true. -/
def randomHorizontalFlip (coin : Bool) (img : Image) : Image :=
  if coin then flipH img else img

/-- `v2.ColorJitter()` with default arguments draws no jitter and leaves the
image unchanged. -/
def colorJitter (img : Image) : Image := img

/-- The notebook's `transform = v2.Compose([ToTensor, Normalize,
RandomResizedCrop((32, 32)), RandomVerticalFlip, RandomHorizontalFlip,
ColorJitter])`, applied with the random draws `rng`. -/
def transform (vlib : VisionLib) (rng : RNG) (img : Image) : Image :=
  colorJitter
    (randomHorizontalFlip (rng.flips.getD 1 false)
      (randomVerticalFlip (rng.flips.getD 0 false)
        (vlib.randomResizedCrop rng.cropSeed (normalizeImg (toTensor img)))))

/-- The CIFAR-100 dataset as loaded from disk: stored images and labels. -/
structure CIFAR where
  images : List Image
  labels : List ℕ
deriving DecidableEq

/-- The dataset `__getitem__`: fetch the stored image and label at `index`,
run the transform chain on the image with fresh random draws, and return the
`(input tensor, label)` pair together with the dataset as the access leaves
it. -/
def getitem (vlib : VisionLib) (d : CIFAR) (rng : RNG) (index : ℕ) :
    (Image × ℕ) × CIFAR :=
  ((transform vlib rng (d.images.getD index []), d.labels.getD index 0), d)

/-! ## Model selection and the top-level workflow -/

/-- The two architectures the notebook mentions: the hand-written `Net`
class and torchvision's `resnet18`. -/
inductive WorkflowModel
  | net
  | resnet18
deriving DecidableEq, Repr

/-- `# model = Net()` is commented out; the notebook runs
`model = models.resnet18(pretrained=False)`. -/
def model : WorkflowModel := .resnet18

/-- Class-score outputs: `Net.fc2 = nn.Linear(1024, 100)` gives `Net` 100
outputs; torchvision's `resnet18` default `num_classes` is 1000. -/
def numClasses : WorkflowModel → ℕ
  | .net => 100
  | .resnet18 => 1000

/-- A 2-D convolution configuration `(in_channels, out_channels,
kernel_size, stride)`. -/
structure Conv2dCfg where
  inChannels : ℕ
  outChannels : ℕ
  kernelSize : ℕ
  stride : ℕ
deriving DecidableEq, Repr

/-- `Net.conv1 = nn.Conv2d(3, 32, 3, 1)`. -/
def Net_conv1 : Conv2dCfg := ⟨3, 32, 3, 1⟩

/-- `Net.conv2 = nn.Conv2d(32, 64, 3, 1)`. -/
def Net_conv2 : Conv2dCfg := ⟨32, 64, 3, 1⟩

/-- `Net.fc1 = nn.Linear(12544, 1024)` and `Net.fc2 = nn.Linear(1024, 100)`
as `(in_features, out_features)` pairs. -/
def Net_fc1 : ℕ × ℕ := (12544, 1024)

/-- See `Net_fc1`. -/
def Net_fc2 : ℕ × ℕ := (1024, 100)

/-- The layer applications of `Net.forward`, in source order. -/
inductive NetLayer
  | conv1Layer
  | conv2Layer
  | reluLayer
  | maxPool2d
  | dropout1Layer
  | dropout2Layer
  | flattenLayer
  | fc1Layer
  | fc2Layer
deriving DecidableEq, Repr

/-- `Net.forward`: conv1, relu, conv2, relu, max-pool, dropout1, flatten,
fc1, relu, dropout2, fc2. -/
def Net_forward : List NetLayer :=
  [.conv1Layer, .reluLayer, .conv2Layer, .reluLayer, .maxPool2d,
   .dropout1Layer, .flattenLayer, .fc1Layer, .reluLayer, .dropout2Layer, .fc2Layer]

/-- What `torch.save` is given to serialize. -/
inductive SaveContent
  | stateDict (m : WorkflowModel)
deriving DecidableEq, Repr

/-- The externally visible effects of running the notebook top to bottom. -/
inductive Effect
  | downloadDataset (root : String)
  | trainEpochRun
  | evaluateEpochRun
  | writeFile (path : String) (content : SaveContent)
deriving DecidableEq, Repr

/-- The notebook's top-level effect sequence: the two `datasets.CIFAR100`
constructions download/verify the archive under `cifar100`, then
`train_epoch(train_loader)`, `evaluate_epoch(val_loader)`, and finally
`torch.save(model.state_dict(), "model.pth")`. -/
def workflow : List Effect :=
  [.downloadDataset "cifar100", .downloadDataset "cifar100",
   .trainEpochRun, .evaluateEpochRun,
   .writeFile "model.pth" (.stateDict model)]

/-- Whether an effect writes a (non-dataset) file to local disk. -/
def Effect.isFileWrite : Effect → Bool
  | .writeFile _ _ => true
  | _ => false

/-! ## Fallible library calls: nothing in the notebook catches anything -/

/-- The external library operations again, now fallible: any call may raise
(network failure, shape mismatch, out-of-memory), modelled as `Except ε`. -/
structure TorchLibE (ε : Type) where
  modelApply : List ℚ → List (List ℚ) → Except ε (List (List ℚ))
  criterion : List (List ℚ) → List ℕ → Except ε ℚ
  gradient : List ℚ → List (List ℚ) → List ℕ → Except ε (List ℚ)
  optStep : ℚ → List ℚ → List (Option ℚ) → Except ε (List ℚ)
  nextLR : ℚ → ℕ → Except ε ℚ
  download : String → Except ε Unit
  save : String → SaveContent → Except ε Unit

/-- `train_step` over fallible library calls.  The notebook wraps none of
the calls in `try`/`except`, so each one's error is returned as-is. -/
def train_stepE {ε : Type} (lib : TorchLibE ε) (input : List (List ℚ))
    (label : List ℕ) (s : NNState) : Except ε ((ℚ × List (List ℚ)) × NNState) :=
  match lib.modelApply s.paramValues input with
  | .error e => .error e
  | .ok output =>
    match lib.criterion output label with
    | .error e => .error e
    | .ok loss =>
      match lib.gradient s.paramValues input label with
      | .error e => .error e
      | .ok gs =>
        let s3 := { s with paramGrads :=
          (s.paramGrads.zip gs).map (fun (p : Option ℚ × ℚ) => some (p.1.getD 0 + p.2)) }
        match lib.optStep s3.lr s3.paramValues s3.paramGrads with
        | .error e => .error e
        | .ok vs =>
          let s4 := { s3 with paramValues := vs }
          let s5 := { s4 with paramGrads := s4.paramGrads.map (fun _ => none) }
          match lib.nextLR s5.lr (s5.schedulerSteps + 1) with
          | .error e => .error e
          | .ok lr' =>
            .ok ((loss, output),
              { s5 with lr := lr', schedulerSteps := s5.schedulerSteps + 1 })

/-- `train_epoch` over fallible steps: the loop body has no handler, so the
first failing step aborts the epoch with its error. -/
def train_epochE {ε : Type} (lib : TorchLibE ε) :
    List (List (List ℚ) × List ℕ) → NNState → Except ε NNState
  | [], s => .ok s
  | b :: bs, s =>
    match train_stepE lib b.1 b.2 s with
    | .error e => .error e
    | .ok (_, s') => train_epochE lib bs s'

/-- `evaluate_step` over fallible library calls: forward then loss, no
handler. -/
def evaluate_stepE {ε : Type} (lib : TorchLibE ε) (input : List (List ℚ))
    (label : List ℕ) (s : NNState) : Except ε ((ℚ × List (List ℚ)) × NNState) :=
  match lib.modelApply s.paramValues input with
  | .error e => .error e
  | .ok output =>
    match lib.criterion output label with
    | .error e => .error e
    | .ok loss => .ok ((loss, output), s)

/-- `evaluate_epoch` over fallible steps, no handler. -/
def evaluate_epochE {ε : Type} (lib : TorchLibE ε) :
    List (List (List ℚ) × List ℕ) → NNState → Except ε NNState
  | [], s => .ok s
  | b :: bs, s =>
    match evaluate_stepE lib b.1 b.2 s with
    | .error e => .error e
    | .ok (_, s') => evaluate_epochE lib bs s'

/-- The notebook run top to bottom over fallible calls: download the two
dataset splits, train an epoch, evaluate an epoch, save the state dict. -/
def workflowE {ε : Type} (lib : TorchLibE ε)
    (trainBatches valBatches : List (List (List ℚ) × List ℕ))
    (s : NNState) : Except ε NNState :=
  match lib.download "cifar100" with
  | .error e => .error e
  | .ok _ =>
    match lib.download "cifar100" with
    | .error e => .error e
    | .ok _ =>
      match train_epochE lib trainBatches s with
      | .error e => .error e
      | .ok s1 =>
        match evaluate_epochE lib valBatches s1 with
        | .error e => .error e
        | .ok s2 =>
          match lib.save "model.pth" (.stateDict model) with
          | .error e => .error e
          | .ok _ => .ok s2

/-! ## Helper lemmas -/

theorem logCall_paramGrads (op : Op) (s : NNState) :
    (logCall op s).paramGrads = s.paramGrads := rfl

theorem logCall_paramValues (op : Op) (s : NNState) :
    (logCall op s).paramValues = s.paramValues := rfl

theorem recordLink_false (op : Op) (s : NNState) :
    recordLink false op s = s := rfl

/-- Shared helper: every `train_step` ends with all gradient buffers reset
(`zero_grad` empties them and the following `scheduler.step` leaves them
untouched). -/
theorem gradsReset_after_train_step (lib : TorchLib) (input : List (List ℚ))
    (label : List ℕ) (s : NNState) : gradsReset (train_step lib input label s).2 := by
  intro g hg
  simp [train_step, modelForward, criterionApply, lossBackward, optimizerStep,
    zero_grad, schedulerStep, logCall, recordLink, gradsReset] at hg
  exact hg.2.symm

/-- The claim's stated call order for a training step, written from the
spec's sentence: forward, loss, gradient, parameter update, schedule update,
gradient reset. -/
def specTrainStepOrder : List Op :=
  [.forward, .lossCompute, .backward, .optimizerStep, .schedulerStep, .zeroGrad]

/-- C1 (counterexample): running `train_step` on a concrete state records the
call order `forward, loss, backward, optimizer step, zero_grad, scheduler
step` — `optimizer.zero_grad()` runs before `scheduler.step()`, so the trace
differs from the spec's claimed order, which puts the schedule update before
the gradient reset. -/
theorem train_step_order_spec_counterexample :
    ((train_step sampleLib [[1]] [0] initState).2).trace =
      [.forward, .lossCompute, .backward, .optimizerStep, .zeroGrad, .schedulerStep] ∧
    ((train_step sampleLib [[1]] [0] initState).2).trace ≠ specTrainStepOrder := by
  constructor
  · rfl
  · decide

/-- C1 (amended): for every library instantiation, batch, and starting state,
a training step performs exactly: forward pass, loss computation, gradient
computation, parameter update, gradient reset, learning-rate schedule update
— the gradient reset happens before the schedule update. -/
theorem train_step_call_order (lib : TorchLib) (input : List (List ℚ))
    (label : List ℕ) (s : NNState) :
    ((train_step lib input label s).2).trace =
      s.trace ++ [.forward, .lossCompute, .backward, .optimizerStep, .zeroGrad, .schedulerStep] := by
  simp [train_step, modelForward, criterionApply, lossBackward, optimizerStep,
    zero_grad, schedulerStep, logCall, recordLink]

/-- C2: if the gradient buffers are empty when an epoch starts (as on a
freshly constructed model), then they are empty at the start of every
forward/backward cycle of the epoch: no step's gradients leak into the
next step's. -/
theorem grads_reset_at_every_cycle_start (lib : TorchLib)
    (batches : List (List (List ℚ) × List ℕ)) (s : NNState)
    (h0 : gradsReset s) : ∀ t ∈ stepStates lib batches s, gradsReset t := by
  induction batches generalizing s with
  | nil => intro t ht; simp [stepStates] at ht
  | cons b bs ih =>
    intro t ht
    rw [stepStates] at ht
    rcases List.mem_cons.mp ht with rfl | hmem
    · exact h0
    · exact ih _ (gradsReset_after_train_step lib b.1 b.2 s) t hmem

/-- C2 (witness): on a freshly initialised two-parameter model and a
one-batch epoch, the gradient buffers are empty at every cycle start. -/
theorem grads_reset_at_every_cycle_start_witness :
    gradsReset initState ∧
      ∀ t ∈ stepStates sampleLib [([[1]], [0])] initState, gradsReset t := by
  have h0 : gradsReset initState := by
    intro g hg
    simp [initState] at hg
    exact hg
  exact ⟨h0, grads_reset_at_every_cycle_start sampleLib [([[1]], [0])] initState h0⟩

/-- Shared helper: an epoch visits one cycle-start state per batch. -/
theorem stepStates_length (lib : TorchLib) (batches : List (List (List ℚ) × List ℕ))
    (s : NNState) : (stepStates lib batches s).length = batches.length := by
  induction batches generalizing s with
  | nil => rfl
  | cons b bs ih => simp [stepStates, ih]

/-- Shared helper: `train_epoch` steps through exactly the `stepStates`
chain — unfolding one batch of the epoch is one `train_step` from the first
cycle-start state. -/
theorem train_epoch_cons (lib : TorchLib) (b : List (List ℚ) × List ℕ)
    (bs : List (List (List ℚ) × List ℕ)) (s : NNState) :
    train_epoch lib (b :: bs) s = train_epoch lib bs (train_step lib b.1 b.2 s).2 := rfl

/-- Shared helper: a `no_grad` evaluation step touches neither the parameter
values, nor the gradient buffers, nor the recorded autograd graph. -/
theorem evaluate_step_state (lib : TorchLib) (input : List (List ℚ))
    (label : List ℕ) (s : NNState) :
    ((evaluate_step lib input label s).2).paramValues = s.paramValues ∧
    ((evaluate_step lib input label s).2).paramGrads = s.paramGrads ∧
    ((evaluate_step lib input label s).2).graph = s.graph := by
  refine ⟨?_, ?_, ?_⟩ <;>
    simp [evaluate_step, modelForward, criterionApply, logCall, recordLink]

/-- C3: evaluation runs with gradient tracking disabled: a single
`evaluate_step` and a whole `evaluate_epoch` record no backward-computation
links (the autograd graph is unchanged) and leave every model parameter and
every gradient buffer exactly as they were. -/
theorem evaluate_no_grad_frame (lib : TorchLib) (input : List (List ℚ))
    (label : List ℕ) (batches : List (List (List ℚ) × List ℕ)) (s : NNState) :
    ((evaluate_step lib input label s).2).paramValues = s.paramValues ∧
    ((evaluate_step lib input label s).2).paramGrads = s.paramGrads ∧
    ((evaluate_step lib input label s).2).graph = s.graph ∧
    ((evaluate_epoch lib batches s).1).paramValues = s.paramValues ∧
    ((evaluate_epoch lib batches s).1).paramGrads = s.paramGrads ∧
    ((evaluate_epoch lib batches s).1).graph = s.graph := by
  obtain ⟨h1, h2, h3⟩ := evaluate_step_state lib input label s
  refine ⟨h1, h2, h3, ?_⟩
  clear h1 h2 h3
  induction batches generalizing s with
  | nil => exact ⟨rfl, rfl, rfl⟩
  | cons b bs ih =>
    obtain ⟨e1, e2, e3⟩ := evaluate_step_state lib b.1 b.2 s
    obtain ⟨i1, i2, i3⟩ := ih (evaluate_step lib b.1 b.2 s).2
    rw [evaluate_epoch]
    exact ⟨by rw [i1, e1], by rw [i2, e2], by rw [i3, e3]⟩

/-- Shared helper: when the batch size divides the item count, every batch
the grouping yields has exactly `n` items (`drop_last=False` never pads, and
divisibility rules out a short final batch). -/
theorem chunks_length_of_dvd {α : Type} (n : ℕ) (xs : List α) (hn : n ≠ 0)
    (hdvd : n ∣ xs.length) : ∀ c ∈ chunks n xs, c.length = n := by
  by_cases hx : xs.length = 0
  · rw [chunks]
    simp [hx]
  · have hcond : ¬(n = 0 ∨ xs.length = 0) := by tauto
    rw [chunks, dif_neg hcond]
    intro c hc
    have hle : n ≤ xs.length := Nat.le_of_dvd (Nat.pos_of_ne_zero hx) hdvd
    rcases List.mem_cons.mp hc with rfl | hmem
    · simp [List.length_take]
      omega
    · exact chunks_length_of_dvd n (xs.drop n) hn
        (by simpa [List.length_drop] using Nat.dvd_sub' hdvd dvd_rfl) c hmem
termination_by xs.length
decreasing_by
  simp only [List.length_drop]
  omega

/-- Shared helper: a non-zero batch size never yields an empty batch. -/
theorem chunks_mem_ne_nil {α : Type} (n : ℕ) (xs : List α) (hn : n ≠ 0) :
    ∀ c ∈ chunks n xs, c ≠ [] := by
  by_cases hx : xs.length = 0
  · rw [chunks]
    simp [hx]
  · have hcond : ¬(n = 0 ∨ xs.length = 0) := by tauto
    rw [chunks, dif_neg hcond]
    intro c hc
    rcases List.mem_cons.mp hc with rfl | hmem
    · rw [← List.length_pos]
      simp [List.length_take]
      omega
    · exact chunks_mem_ne_nil n (xs.drop n) hn c hmem
termination_by xs.length
decreasing_by
  simp only [List.length_drop]
  omega

/-- C5: both loaders group items into batches of exactly `batch_size = 8`
whenever 8 divides the item count — as it does for the 50000-item training
split and the 10000-item validation split — and per-pass shuffling is on
for the training loader and off for the validation loader. -/
theorem loader_batches_of_eight {α : Type} (items : List α)
    (hdvd : 8 ∣ items.length) :
    (∀ c ∈ chunks train_loader.batch_size items, c.length = 8) ∧
    (∀ c ∈ chunks val_loader.batch_size items, c.length = 8) ∧
    train_loader.shuffle = true ∧ val_loader.shuffle = false ∧
    8 ∣ trainSetSize ∧ 8 ∣ valSetSize := by
  refine ⟨?_, ?_, rfl, rfl, by norm_num [trainSetSize], by norm_num [valSetSize]⟩
  · exact chunks_length_of_dvd 8 items (by norm_num) hdvd
  · exact chunks_length_of_dvd 8 items (by norm_num) hdvd

/-- C5 (witness): on a concrete 16-item list, both loaders yield only
batches of 8, and the shuffle flags and split sizes check out. -/
theorem loader_batches_of_eight_witness :
    (∀ c ∈ chunks train_loader.batch_size (List.range 16), c.length = 8) ∧
    (∀ c ∈ chunks val_loader.batch_size (List.range 16), c.length = 8) ∧
    train_loader.shuffle = true ∧ val_loader.shuffle = false ∧
    8 ∣ trainSetSize ∧ 8 ∣ valSetSize :=
  loader_batches_of_eight (List.range 16) (by norm_num)

/-- Shared helper: the matching-prediction count is capped by the label
count, because predictions and labels are compared position by position. -/
theorem countCorrect_le_length (pred label : List ℕ) :
    countCorrect pred label ≤ label.length := by
  unfold countCorrect
  refine le_trans (List.length_filter_le _ _) ?_
  rw [List.length_zip]
  omega

/-- Shared helper: every accuracy value lies in `[0, 1]`. -/
theorem accuracy_unit_interval (pred label : List ℕ) :
    0 ≤ accuracy pred label ∧ accuracy pred label ≤ 1 := by
  unfold accuracy
  rcases Nat.eq_zero_or_pos label.length with h | h
  · simp [h]
  · have hlen : (0 : ℚ) < (label.length : ℚ) := by exact_mod_cast h
    constructor
    · positivity
    · rw [div_le_one hlen]
      exact_mod_cast countCorrect_le_length pred label

/-- Shared helper: every accuracy `evaluate_epoch` reports comes from some
batch of the epoch. -/
theorem evaluate_epoch_accs_mem (lib : TorchLib)
    (batches : List (List (List ℚ) × List ℕ)) (s : NNState) (a : ℚ)
    (ha : a ∈ (evaluate_epoch lib batches s).2) :
    ∃ b ∈ batches, ∃ pred : List ℕ, a = accuracy pred b.2 := by
  induction batches generalizing s with
  | nil => simp [evaluate_epoch] at ha
  | cons b bs ih =>
    rw [evaluate_epoch] at ha
    rcases List.mem_cons.mp ha with h | hmem
    · exact ⟨b, List.mem_cons_self b bs,
        ((evaluate_step lib b.1 b.2 s).1.2).map argmaxRow, h⟩
    · obtain ⟨b', hb', pred, hpred⟩ := ih _ hmem
      exact ⟨b', List.mem_cons_of_mem b hb', pred, hpred⟩

/-- C9: over the validation loader's batches, every per-batch accuracy
`evaluate_epoch` computes is a well-defined number in `[0, 1]`: every batch
has a non-zero label count (so `len(label)` never divides by zero), and for
any predictions the matching count never exceeds the batch size. -/
theorem evaluate_epoch_accuracy_wellDefined (lib : TorchLib)
    (items : List (List ℚ × ℕ)) (s : NNState) :
    (∀ b ∈ loaderBatches val_loader items, b.2.length ≠ 0) ∧
    (∀ b ∈ loaderBatches val_loader items, ∀ pred : List ℕ,
      countCorrect pred b.2 ≤ b.2.length) ∧
    (∀ a ∈ (evaluate_epoch lib (loaderBatches val_loader items) s).2,
      0 ≤ a ∧ a ≤ 1) := by
  refine ⟨?_, ?_, ?_⟩
  · intro b hb
    obtain ⟨c, hc, rfl⟩ := List.mem_map.mp hb
    have hcne := chunks_mem_ne_nil 8 items (by norm_num) c hc
    simp [collate]
    exact hcne
  · intro b _ pred
    exact countCorrect_le_length pred b.2
  · intro a ha
    obtain ⟨b, _, pred, rfl⟩ := evaluate_epoch_accs_mem lib _ s a ha
    exact accuracy_unit_interval pred b.2

/-- C9 (witness): on a concrete one-item validation set, the single batch's
label count is non-zero and any prediction list matches at most once. -/
theorem evaluate_epoch_accuracy_wellDefined_witness :
    (([[(1 : ℚ)]], ([0] : List ℕ)) : List (List ℚ) × List ℕ).2.length ≠ 0 ∧
    countCorrect [5] (([[(1 : ℚ)]], ([0] : List ℕ)) : List (List ℚ) × List ℕ).2 ≤
      (([[(1 : ℚ)]], ([0] : List ℕ)) : List (List ℚ) × List ℕ).2.length := by
  have hmem : (([[(1 : ℚ)]], ([0] : List ℕ)) : List (List ℚ) × List ℕ) ∈
      loaderBatches val_loader [([(1 : ℚ)], (0 : ℕ))] := by
    rw [loaderBatches]
    rw [chunks]
    norm_num [val_loader]
    rw [chunks]
    simp [collate]
  exact ⟨(evaluate_epoch_accuracy_wellDefined sampleLib [([(1 : ℚ)], 0)] initState).1 _ hmem,
    (evaluate_epoch_accuracy_wellDefined sampleLib [([(1 : ℚ)], 0)] initState).2.1 _ hmem [5]⟩

/-- C4 (counterexample): the model the workflow trains and evaluates is not
the `Net` feed-forward definition: `model = Net()` is commented out in
favour of `models.resnet18(pretrained=False)`, and the trained model's class
count is not 100. -/
theorem trained_model_not_Net :
    model ≠ WorkflowModel.net ∧ numClasses model ≠ 100 := by
  constructor
  · intro h
    simpa [model] using h
  · intro h
    simpa [model, numClasses] using h

/-- C4 (amended): the workflow trains and evaluates torchvision's
`resnet18` with its default 1000 class scores; the `Net` class — two
convolutional transforms, relu nonlinearities, max pooling, two dropout
regularisers, a flatten, and two fully-connected transforms ending in 100
class scores — is defined in the notebook but never instantiated. -/
theorem trained_model_is_resnet18 :
    model = WorkflowModel.resnet18 ∧ numClasses model = 1000 ∧
    numClasses WorkflowModel.net = 100 ∧ Net_fc2.2 = 100 ∧
    (Net_forward.filter (fun l => l == .conv1Layer || l == .conv2Layer)).length = 2 ∧
    (Net_forward.filter (fun l => l == .fc1Layer || l == .fc2Layer)).length = 2 ∧
    (Net_forward.filter (fun l => l == .dropout1Layer || l == .dropout2Layer)).length = 2 ∧
    NetLayer.reluLayer ∈ Net_forward ∧ NetLayer.maxPool2d ∈ Net_forward ∧
    NetLayer.flattenLayer ∈ Net_forward ∧
    Net_forward.getLast? = some .fc2Layer := by
  decide

/-- C6: the workflow writes exactly one file besides the downloaded
dataset — the serialized parameters (`model.state_dict()`) at
`model.pth` — and that write is the workflow's final effect. -/
theorem workflow_single_parameter_file :
    workflow.filter Effect.isFileWrite =
      [.writeFile "model.pth" (.stateDict model)] ∧
    (workflow.filter Effect.isFileWrite).length = 1 ∧
    workflow.getLast? = some (.writeFile "model.pth" (.stateDict model)) := by
  refine ⟨rfl, rfl, rfl⟩

/-- C10: reshaping preserves element count and row-major order: for every
3×4 tensor `a`, the chain `a.view(4, 3).view(2, 6).flatten()` succeeds and
returns a rank-1 tensor of 12 elements equal to `a.flatten()`. -/
theorem view_view_flatten_eq_flatten {α : Type} (a : Tensor α)
    (hshape : a.shape = [3, 4]) (hlen : a.data.length = 12) :
    ((a.view [4, 3]).bind (fun b => b.view [2, 6])).map Tensor.flatten =
      some a.flatten ∧
    a.flatten.shape = [12] ∧ a.flatten.data = a.data := by
  refine ⟨?_, ?_, rfl⟩
  · simp [Tensor.view, Tensor.flatten, hlen]
  · simp [Tensor.flatten, hlen]

/-- C10 (witness): the notebook's own `a = torch.ones((3, 4))` runs the
chain and lands on `a.flatten()`. -/
theorem view_view_flatten_eq_flatten_witness :
    (ones 3 4).shape = [3, 4] ∧ (ones 3 4).data.length = 12 ∧
    (((ones 3 4).view [4, 3]).bind (fun b => b.view [2, 6])).map Tensor.flatten =
      some (ones 3 4).flatten := by
  refine ⟨rfl, by simp [ones], ?_⟩
  exact (view_view_flatten_eq_flatten (ones 3 4) rfl (by simp [ones])).1

/-- C8: fetching a dataset item by index is read-only and re-derived fresh
each access: the dataset is unchanged, the label never depends on the random
draws, and — because the transform chain contains random crop, flips, and
colour jitter — two fetches at the same index with different draws are not
required to return equal input tensors (witnessed by a horizontal flip),
though their labels agree. -/
theorem getitem_read_only_fresh :
    (∀ (vlib : VisionLib) (d : CIFAR) (rng : RNG) (i : ℕ),
      (getitem vlib d rng i).2 = d) ∧
    (∀ (vlib : VisionLib) (d : CIFAR) (rng₁ rng₂ : RNG) (i : ℕ),
      ((getitem vlib d rng₁ i).1).2 = ((getitem vlib d rng₂ i).1).2) ∧
    (∃ (vlib : VisionLib) (d : CIFAR) (rng₁ rng₂ : RNG) (i : ℕ),
      ((getitem vlib d rng₁ i).1).1 ≠ ((getitem vlib d rng₂ i).1).1 ∧
      ((getitem vlib d rng₁ i).1).2 = ((getitem vlib d rng₂ i).1).2) := by
  refine ⟨fun vlib d rng i => rfl, fun vlib d rng₁ rng₂ i => rfl, ?_⟩
  refine ⟨⟨fun _ img => img⟩, ⟨[[[0, 255]]], [7]⟩,
    ⟨[false, false], 0⟩, ⟨[false, true], 0⟩, 0, ?_, rfl⟩
  intro h
  have h' := congrArg (fun img => img.getD 0 []) h
  simp [getitem, transform, colorJitter, randomHorizontalFlip,
    randomVerticalFlip, flipH, flipV, normalizeImg, toTensor] at h'
  norm_num at h'

/-- C7: no failure is caught, retried, recovered from, or translated: a
library error at any stage — forward pass, loss, backward, optimizer step,
scheduler step, dataset download, save — propagates unchanged out of
`train_stepE`, `train_epochE`, `evaluate_stepE`, `evaluate_epochE`, and the
top-level workflow. -/
theorem no_error_handling {ε : Type} (lib : TorchLibE ε) (input : List (List ℚ))
    (label : List ℕ) (s : NNState) (e : ε) :
    (lib.modelApply s.paramValues input = .error e →
      train_stepE lib input label s = .error e) ∧
    (∀ output, lib.modelApply s.paramValues input = .ok output →
      lib.criterion output label = .error e →
      train_stepE lib input label s = .error e) ∧
    (∀ output loss, lib.modelApply s.paramValues input = .ok output →
      lib.criterion output label = .ok loss →
      lib.gradient s.paramValues input label = .error e →
      train_stepE lib input label s = .error e) ∧
    (∀ output loss gs, lib.modelApply s.paramValues input = .ok output →
      lib.criterion output label = .ok loss →
      lib.gradient s.paramValues input label = .ok gs →
      lib.optStep s.lr s.paramValues
        ((s.paramGrads.zip gs).map (fun p => some (p.1.getD 0 + p.2))) = .error e →
      train_stepE lib input label s = .error e) ∧
    (∀ output loss gs vs, lib.modelApply s.paramValues input = .ok output →
      lib.criterion output label = .ok loss →
      lib.gradient s.paramValues input label = .ok gs →
      lib.optStep s.lr s.paramValues
        ((s.paramGrads.zip gs).map (fun p => some (p.1.getD 0 + p.2))) = .ok vs →
      lib.nextLR s.lr (s.schedulerSteps + 1) = .error e →
      train_stepE lib input label s = .error e) ∧
    (∀ bs, train_stepE lib input label s = .error e →
      train_epochE lib ((input, label) :: bs) s = .error e) ∧
    (lib.modelApply s.paramValues input = .error e →
      evaluate_stepE lib input label s = .error e) ∧
    (∀ output, lib.modelApply s.paramValues input = .ok output →
      lib.criterion output label = .error e →
      evaluate_stepE lib input label s = .error e) ∧
    (∀ bs, evaluate_stepE lib input label s = .error e →
      evaluate_epochE lib ((input, label) :: bs) s = .error e) ∧
    (∀ tb vb, lib.download "cifar100" = .error e →
      workflowE lib tb vb s = .error e) ∧
    (∀ tb vb s2, lib.download "cifar100" = .ok () →
      train_epochE lib tb s = .ok s2 →
      ∀ s3, evaluate_epochE lib vb s2 = .ok s3 →
      lib.save "model.pth" (.stateDict model) = .error e →
      workflowE lib tb vb s = .error e) := by
  refine ⟨?_, ?_, ?_, ?_, ?_, ?_, ?_, ?_, ?_, ?_, ?_⟩
  · intro h1
    simp [train_stepE, h1]
  · intro output h1 h2
    simp [train_stepE, h1, h2]
  · intro output loss h1 h2 h3
    simp [train_stepE, h1, h2, h3]
  · intro output loss gs h1 h2 h3 h4
    simp [train_stepE, h1, h2, h3, h4]
  · intro output loss gs vs h1 h2 h3 h4 h5
    simp [train_stepE, h1, h2, h3, h4, h5]
  · intro bs h1
    simp [train_epochE, h1]
  · intro h1
    simp [evaluate_stepE, h1]
  · intro output h1 h2
    simp [evaluate_stepE, h1, h2]
  · intro bs h1
    simp [evaluate_epochE, h1]
  · intro tb vb h1
    simp [workflowE, h1]
  · intro tb vb s2 h1 h2 s3 h3 h4
    simp [workflowE, h1, h2, h3, h4]

/-- A library instantiation whose every call fails, to exercise the
propagation claims on closed inputs. -/
def failLib : TorchLibE String where
  modelApply := fun _ _ => .error "shape mismatch"
  criterion := fun _ _ => .error "shape mismatch"
  gradient := fun _ _ _ => .error "shape mismatch"
  optStep := fun _ _ _ => .error "out of memory"
  nextLR := fun _ _ => .error "out of memory"
  download := fun _ => .error "network download failure"
  save := fun _ _ => .error "disk full"

/-- C7 (witness): a concrete forward-pass failure surfaces verbatim from
`train_stepE` and a concrete download failure surfaces verbatim from the
workflow. -/
theorem no_error_handling_witness :
    train_stepE failLib [[1]] [0] initState = .error "shape mismatch" ∧
    workflowE failLib [] [] initState = .error "network download failure" :=
  ⟨(no_error_handling failLib [[1]] [0] initState "shape mismatch").1 rfl,
   (no_error_handling failLib [[1]] [0] initState "network download failure").2.2.2.2.2.2.2.2.2.1
     [] [] rfl⟩
